import Mathlib

/-!
Shallow embedding of the TestAutomationPro core, taken from the sources:

* `src/main/main.js` — the Electron main process; its `setupIpcHandlers`
  registers the IPC channels and contains the `tests:run`,
  `crawler:start` and `ai:generate-tests` handlers (placeholder bodies
  that ignore their `config` argument and return fixed data).
* `src/main/playwright-engine.js` — `StealthPlaywrightEngine.navigate`,
  a try/catch around `page.goto` that converts any raised error to the
  boolean `false`.
* `src/unnamed/part_001` — the preload script; `stopTests` invokes the
  IPC channel `tests:stop`.

The Execution Orchestrator (`TestExecutor`) and Crawl Controller
(`WebCrawler`) implementations are required by `main.js` but are not in
the sources; where a claim depends on them they are modelled from the
spec (sections 4.1 and 4.5), and each such definition says so in its
doc comment.

JavaScript objects are embedded as structures whose optional keys are
`Option` fields (`none` = the key is absent from the returned object);
a JS `async` handler wrapped in try/catch is embedded as a pure body of
type `Except String α` plus a wrapper that turns the `error` branch
into the handler's catch-clause object.  Logging (`logger.info`,
`console.error`) and the simulated delays (`setTimeout`) have no effect
on the returned data and are dropped by the embedding.
-/

namespace TestAutomationPro

/-- Test types as they appear in the data model (spec section 3) and in the
objects returned by the `ai:generate-tests` handler (`main.js`). -/
inductive TestType where
  | functional
  | ui
  | accessibility
  | negative
  | performance
deriving DecidableEq, Repr

/-- One element of the `tests` array returned by the `ai:generate-tests`
handler in `main.js` (`{ name: ..., type: ... }`). -/
structure GeneratedTest where
  name : String
  type : TestType
deriving DecidableEq, Repr

/-- An element descriptor as supplied in a generation request
(spec section 6: generation input is pages plus their element
descriptors); only the fields the claims mention are kept. -/
structure ElementInfo where
  locator : String
  interactive : Bool
deriving DecidableEq, Repr

/-- The `config` argument of the `ai:generate-tests` IPC handler: the
generation input of spec section 6 (page, element descriptors, desired
test-type filters).  The handler in `main.js` ignores every field. -/
structure GenConfig where
  pageUrl : String
  elements : List ElementInfo
  testTypes : List TestType
deriving DecidableEq, Repr

/-- The object returned by the `ai:generate-tests` handler: `success`,
and either a `tests` key (success branch) or an `error` key (catch
branch); an absent key is `none`. -/
structure GenResponse where
  success : Bool
  tests : Option (List GeneratedTest)
  error : Option String
deriving DecidableEq, Repr

/-- Body of the `try` block of the `ai:generate-tests` handler
(`main.js`): it returns
`{ success: true, tests: [ {name: 'Login Test', type: 'functional'},
{name: 'Navigation Test', type: 'ui'},
{name: 'Form Submission Test', type: 'functional'} ] }` without reading
`config`.  The body only logs and awaits a `setTimeout` promise, so it
cannot raise. -/
def aiGenerateTestsBody (_config : GenConfig) : Except String GenResponse :=
  .ok
    { success := true
    , tests := some
        [ { name := "Login Test", type := .functional }
        , { name := "Navigation Test", type := .ui }
        , { name := "Form Submission Test", type := .functional } ]
    , error := none }

/-- The `ai:generate-tests` IPC handler (`main.js`): try block plus the
catch clause `return { success: false, error: error.message }`. -/
def aiGenerateTests (config : GenConfig) : GenResponse :=
  match aiGenerateTestsBody config with
  | .ok r => r
  | .error msg => { success := false, tests := none, error := some msg }

/-- The `config` argument of the `tests:run` IPC handler: the execution
input of spec section 6 (list of TestCase ids, parallelism, timeout,
retries).  The handler in `main.js` ignores every field. -/
structure RunConfig where
  testIds : List Nat
  parallelism : Nat
  perTestTimeout : Nat
  maxRetries : Nat
  retryDelay : Nat
deriving DecidableEq, Repr

/-- The `results` object returned by the `tests:run` handler.  The
handler builds `{ passed: 5, failed: 1, total: 6 }`; the spec's summary
additionally has an error count and a total duration, so those are
`Option` fields and the handler leaves them absent (`none`). -/
structure RunSummary where
  passed : Option Nat
  failed : Option Nat
  errors : Option Nat
  total : Option Nat
  totalDuration : Option Nat
deriving DecidableEq, Repr

/-- The object returned by the `tests:run` handler: `success`, and
either a `results` key (success branch) or an `error` key (catch
branch). -/
structure RunResponse where
  success : Bool
  results : Option RunSummary
  error : Option String
deriving DecidableEq, Repr

/-- Body of the `try` block of the `tests:run` handler (`main.js`): it
returns `{ success: true, results: { passed: 5, failed: 1, total: 6 } }`
without reading `config`.  The body only logs and awaits a `setTimeout`
promise, so it cannot raise. -/
def testsRunBody (_config : RunConfig) : Except String RunResponse :=
  .ok
    { success := true
    , results := some
        { passed := some 5, failed := some 1, errors := none
        , total := some 6, totalDuration := none }
    , error := none }

/-- The `tests:run` IPC handler (`main.js`): try block plus the catch
clause `return { success: false, error: error.message }`. -/
def testsRun (config : RunConfig) : RunResponse :=
  match testsRunBody config with
  | .ok r => r
  | .error msg => { success := false, results := none, error := some msg }

/-- The `config` argument of the `crawler:start` IPC handler: the crawl
input of spec section 6.  The handler in `main.js` ignores every
field. -/
structure CrawlConfig where
  seedUrl : String
  maxPages : Nat
  maxDepth : Nat
  perPageTimeout : Nat
deriving DecidableEq, Repr

/-- The `results` object returned by the `crawler:start` handler:
`{ pages: 15, elements: 342 }`. -/
structure CrawlCounts where
  pages : Nat
  elements : Nat
deriving DecidableEq, Repr

/-- The object returned by the `crawler:start` handler. -/
structure CrawlResponse where
  success : Bool
  results : Option CrawlCounts
  error : Option String
deriving DecidableEq, Repr

/-- Body of the `try` block of the `crawler:start` handler (`main.js`):
it returns `{ success: true, results: { pages: 15, elements: 342 } }`
without reading `config`.  The body only logs and awaits a `setTimeout`
promise, so it cannot raise. -/
def crawlerStartBody (_config : CrawlConfig) : Except String CrawlResponse :=
  .ok
    { success := true
    , results := some { pages := 15, elements := 342 }
    , error := none }

/-- The `crawler:start` IPC handler (`main.js`): try block plus the
catch clause `return { success: false, error: error.message }`. -/
def crawlerStart (config : CrawlConfig) : CrawlResponse :=
  match crawlerStartBody config with
  | .ok r => r
  | .error msg => { success := false, results := none, error := some msg }

/-- The IPC channels registered by `setupIpcHandlers` in `main.js`:
exactly the channels passed to `ipcMain.handle` there, in source
order. -/
def registeredIpcChannels : List String :=
  [ "app:get-version"
  , "tests:run"
  , "crawler:start"
  , "ai:generate-tests"
  , "files:select-directory"
  , "files:select-file"
  , "files:save-file" ]

/-- The IPC channel that the preload script's `stopTests` function
invokes (`src/unnamed/part_001`:
`stopTests: () => ipcRenderer.invoke('tests:stop')`). -/
def stopTestsChannel : String := "tests:stop"

/-- `StealthPlaywrightEngine.navigate` (`playwright-engine.js`): the
outcome of `await this.page.goto(url, ...)` (either normal completion
or a raised error, embedded as `Except`) is mapped by the try/catch to
`true` on completion and `false` on any raised error; the catch clause
only logs before returning `false`. -/
def navigate (gotoOutcome : Except String Unit) : Bool :=
  match gotoOutcome with
  | .ok _ => true
  | .error _ => false

/-- Outcome of a single attempt at a TestCase, as classified by the
spec (section 4.5): pass, deterministic assertion failure, or a
transient condition (timeout / transport-level error). -/
inductive AttemptOutcome where
  | passed
  | failed
  | errored
  | timedOut
deriving DecidableEq, Repr

/-- Final status of an ExecutionResult (spec section 3). -/
inductive ResultStatus where
  | passed
  | failed
  | error
  | timeout
deriving DecidableEq, Repr

/-- ExecutionResult, restricted to the fields the claims mention
(spec section 3: test case id, status, retry count). -/
structure ExecutionResult where
  testId : Nat
  status : ResultStatus
  retryCount : Nat
deriving DecidableEq, Repr

/-- Modelled from the spec: the per-test retry loop of the Execution
Orchestrator (section 4.5), whose implementation (`TestExecutor`,
required by `main.js` from `./execution/test-executor`) is not in the
sources.  `attempts k` is the outcome of attempt number `k` (attempt 0
is the initial try, attempt `k` the `k`-th retry, each on a fresh
browser session).  Per the spec, a pass ends the test, an assertion
failure is recorded as `failed` and never retried, and a timeout or
transport-level error is retried while retries remain and otherwise
recorded as `error`.  The second argument is the current attempt
number, the third the number of retries still allowed; the result pairs
the final status with the retry count (the index of the last attempt
made). -/
def execAttempts (attempts : Nat → AttemptOutcome) :
    Nat → Nat → ResultStatus × Nat
  | i, 0 =>
    match attempts i with
    | .passed => (.passed, i)
    | .failed => (.failed, i)
    | .errored => (.error, i)
    | .timedOut => (.error, i)
  | i, remaining + 1 =>
    match attempts i with
    | .passed => (.passed, i)
    | .failed => (.failed, i)
    | .errored => execAttempts attempts (i + 1) remaining
    | .timedOut => execAttempts attempts (i + 1) remaining

/-- Modelled from the spec: run one TestCase under the configured
`maxRetries` (section 4.5: retried up to `maxRetries`). -/
def executeTest (attempts : Nat → AttemptOutcome) (maxRetries : Nat) :
    ResultStatus × Nat :=
  execAttempts attempts 0 maxRetries

/-- Modelled from the spec: an execution run over a list of dispatched
TestCases (section 4.5), each given as its id together with its
attempt-outcome sequence; every dispatched TestCase yields exactly one
ExecutionResult. -/
def executeRun (tests : List (Nat × (Nat → AttemptOutcome)))
    (maxRetries : Nat) : List ExecutionResult :=
  tests.map fun t =>
    { testId := t.1
    , status := (executeTest t.2 maxRetries).1
    , retryCount := (executeTest t.2 maxRetries).2 }

/-- Status of a PageRecord (spec section 3). -/
inductive PageStatus where
  | ok
  | loginRequired
  | fallbackPublic
  | error
deriving DecidableEq, Repr

/-- PageRecord, restricted to the fields the claims mention
(spec section 3: url, crawl depth, status). -/
structure PageRecord where
  url : String
  depth : Nat
  status : PageStatus
deriving DecidableEq, Repr

/-- Modelled from the spec: pick the next frontier entry the Crawl
Controller will visit (section 4.1): frontier entries are taken in FIFO
order, skipping entries already in the visited set (URL dedup before
navigation) and entries beyond `maxDepth`. -/
def nextVisitable (visited : List String) (maxDepth : Nat) :
    List (String × Nat) → Option ((String × Nat) × List (String × Nat))
  | [] => none
  | entry :: rest =>
    if entry.1 ∈ visited ∨ maxDepth < entry.2 then
      nextVisitable visited maxDepth rest
    else
      some (entry, rest)

/-- Modelled from the spec: the breadth-first crawl loop of the Crawl
Controller (section 4.1), whose implementation (`WebCrawler`, required
by `main.js` from `./crawling/web-crawler`) is not in the sources.
Navigation goes through the source function `navigate`
(`playwright-engine.js`), applied to the oracle `nav url` giving the
`page.goto` outcome for each url; `links url` is the set of same-site
links discovered on a successfully loaded page.  Each visit produces
one PageRecord and consumes one unit of the remaining page budget
(initially `maxPages`); a failed navigation produces a record with
status `error`, is not retried, contributes no links, and the loop
continues with the rest of the frontier. -/
def crawlGo (nav : String → Except String Unit)
    (links : String → List String) (maxDepth : Nat) :
    Nat → List (String × Nat) → List String → List PageRecord
  | 0, _, _ => []
  | budget + 1, frontier, visited =>
    match nextVisitable visited maxDepth frontier with
    | none => []
    | some (entry, rest) =>
      if navigate (nav entry.1) then
        { url := entry.1, depth := entry.2, status := .ok } ::
          crawlGo nav links maxDepth budget
            (rest ++ (links entry.1).map fun u => (u, entry.2 + 1))
            (entry.1 :: visited)
      else
        { url := entry.1, depth := entry.2, status := .error } ::
          crawlGo nav links maxDepth budget rest (entry.1 :: visited)

/-- Modelled from the spec: a whole crawl run (section 4.1) from a seed
url with the `maxPages` and `maxDepth` bounds of the crawl input
(spec section 6). -/
def crawl (nav : String → Except String Unit)
    (links : String → List String) (seedUrl : String)
    (maxPages maxDepth : Nat) : List PageRecord :=
  crawlGo nav links maxDepth maxPages [(seedUrl, 0)] []

/-- A crawl input with `maxPages = 2` over a seed page, the failing
input of the maxPages scenario (spec section 8). -/
def maxPagesTwoConfig : CrawlConfig :=
  { seedUrl := "https://site/seed", maxPages := 2, maxDepth := 5
  , perPageTimeout := 30 }

/-- An execution input dispatching a single TestCase. -/
def oneTestRunConfig : RunConfig :=
  { testIds := [42], parallelism := 3, perTestTimeout := 60
  , maxRetries := 2, retryDelay := 1 }

/-- A generation input for one page with four interactive elements, the
failing input of the fallback scenario (spec section 8). -/
def fourElementGenConfig : GenConfig :=
  { pageUrl := "https://site/form"
  , elements :=
      [ { locator := "input#name", interactive := true }
      , { locator := "input#email", interactive := true }
      , { locator := "select#role", interactive := true }
      , { locator := "button#submit", interactive := true } ]
  , testTypes := [.functional] }

/-- An attempt-outcome sequence whose every attempt hits a
transport-level error. -/
def alwaysErrored : Nat → AttemptOutcome := fun _ => .errored

/-- A `page.goto` oracle that raises on the url `"a"` and completes on
every other url. -/
def navFailsOnA : String → Except String Unit :=
  fun u => if u = "a" then .error "net::ERR_TIMED_OUT" else .ok ()

/-- A link oracle discovering no links. -/
def noLinks : String → List String := fun _ => []

/-- If the FIFO scan of the frontier picks an entry to visit, that
entry's url is not in the visited set (the dedup check happens before
navigation). -/
theorem nextVisitable_head_not_visited (visited : List String)
    (maxDepth : Nat) :
    ∀ frontier entry rest,
      nextVisitable visited maxDepth frontier = some (entry, rest) →
      entry.1 ∉ visited := by
  intro frontier
  induction frontier with
  | nil =>
      intro entry rest h
      simp [nextVisitable] at h
  | cons head tail ih =>
      intro entry rest h
      by_cases hc : head.1 ∈ visited ∨ maxDepth < head.2
      · exact ih entry rest (by simpa [nextVisitable, hc] using h)
      · have hhe : head = entry ∧ tail = rest := by
          simpa [nextVisitable, hc] using h
        intro hmem
        exact hc (Or.inl (hhe.1 ▸ hmem))

/-- Every PageRecord that the crawl loop produces is for a url outside
the visited set it started from: a url, once visited, is never visited
(in particular never retried) later in the run. -/
theorem crawlGo_url_not_visited (nav : String → Except String Unit)
    (links : String → List String) (maxDepth : Nat) :
    ∀ budget frontier visited r,
      r ∈ crawlGo nav links maxDepth budget frontier visited →
      r.url ∉ visited := by
  intro budget
  induction budget with
  | zero =>
      intro frontier visited r hr
      simp [crawlGo] at hr
  | succ n ih =>
      intro frontier visited r hr
      rw [crawlGo] at hr
      split at hr
      · exact absurd hr (List.not_mem_nil r)
      · rename_i entry rest heq
        have hnot := nextVisitable_head_not_visited visited maxDepth
          frontier entry rest heq
        split at hr
        · rcases List.mem_cons.mp hr with h1 | h2
          · subst h1; exact hnot
          · intro hmem
            exact ih _ _ r h2 (List.mem_cons_of_mem _ hmem)
        · rcases List.mem_cons.mp hr with h1 | h2
          · subst h1; exact hnot
          · intro hmem
            exact ih _ _ r h2 (List.mem_cons_of_mem _ hmem)

/-- Each attempt sequence ends with a retry count of at most the start
index plus the remaining retries, and reaches that bound exactly when
the final status is `error`. -/
theorem execAttempts_bound (attempts : Nat → AttemptOutcome) :
    ∀ remaining i,
      (execAttempts attempts i remaining).2 ≤ i + remaining ∧
        ((execAttempts attempts i remaining).1 = .error →
          (execAttempts attempts i remaining).2 = i + remaining) := by
  intro remaining
  induction remaining with
  | zero =>
      intro i
      cases h : attempts i <;>
        simp [execAttempts, h]
  | succ n ih =>
      intro i
      have hrec := ih (i + 1)
      cases h : attempts i with
      | passed =>
          simp only [execAttempts, h]
          exact ⟨by omega, fun hs => by cases hs⟩
      | failed =>
          simp only [execAttempts, h]
          exact ⟨by omega, fun hs => by cases hs⟩
      | errored =>
          simp only [execAttempts, h]
          refine ⟨?_, fun hs => ?_⟩
          · have := hrec.1; omega
          · have := hrec.2 hs; omega
      | timedOut =>
          simp only [execAttempts, h]
          refine ⟨?_, fun hs => ?_⟩
          · have := hrec.1; omega
          · have := hrec.2 hs; omega

/-- Claim C1: the claimed crawl behaviour (at most `maxPages`
PageRecords; with `maxPages = 2` exactly 2 pages) fails on the
`crawler:start` handler of `main.js`: the handler ignores its config
and reports 15 crawled pages for the `maxPages = 2` input, and 15
exceeds 2. -/
theorem crawlerStart_reports_fixed_pages :
    crawlerStart maxPagesTwoConfig =
      { success := true, results := some { pages := 15, elements := 342 }
      , error := none } ∧
      maxPagesTwoConfig.maxPages = 2 ∧ ¬(15 ≤ 2) := by
  decide

/-- Claim C2: the claimed completion report (totals equal to the number
of dispatched TestCases) fails on the `tests:run` handler of `main.js`:
for a run dispatching exactly one TestCase the handler still reports
`total = 6` (`passed 5, failed 1`), and `6` is not the number
dispatched. -/
theorem testsRun_totals_ignore_dispatched :
    oneTestRunConfig.testIds.length = 1 ∧
      (testsRun oneTestRunConfig).results =
        some { passed := some 5, failed := some 1, errors := none
             , total := some 6, totalDuration := none } ∧
      ¬((6 : Nat) = oneTestRunConfig.testIds.length) := by
  decide

/-- Claim C3: the claimed fallback (at least one smoke TestCase per
interactive element, so at least 4 for a page with 4 interactive
elements) fails on the `ai:generate-tests` handler of `main.js`: for a
generation input with 4 interactive elements the handler returns its
fixed list of 3 tests, and 4 ≤ 3 is false. -/
theorem aiGenerateTests_three_for_four_elements :
    fourElementGenConfig.elements.countP (fun e => e.interactive) = 4 ∧
      (aiGenerateTests fourElementGenConfig).tests.map List.length = some 3 ∧
      ¬(4 ≤ 3) := by
  decide

/-- Claim C4: in the execution run modelled from spec section 4.5,
every produced ExecutionResult has a retry count of at most the
configured `maxRetries`, and a result whose final status is `error`
has retry count exactly `maxRetries`. -/
theorem executeRun_retry_bound (tests : List (Nat × (Nat → AttemptOutcome)))
    (maxRetries : Nat) (res : ExecutionResult)
    (hres : res ∈ executeRun tests maxRetries) :
    res.retryCount ≤ maxRetries ∧
      (res.status = .error → res.retryCount = maxRetries) := by
  rcases List.mem_map.mp hres with ⟨t, _, rfl⟩
  have h := execAttempts_bound t.2 maxRetries 0
  simpa [executeTest] using h

/-- Witness for claim C4: a TestCase whose every attempt errors, run
with `maxRetries = 2`, produces the result with status `error` and
retry count 2, which satisfies both bounds. -/
theorem executeRun_retry_bound_witness :
    ({ testId := 1, status := ResultStatus.error, retryCount := 2 } :
        ExecutionResult) ∈ executeRun [(1, alwaysErrored)] 2 ∧
      ((2 : Nat) ≤ 2 ∧ (ResultStatus.error = ResultStatus.error → (2 : Nat) = 2)) :=
  ⟨by decide, executeRun_retry_bound [(1, alwaysErrored)] 2
    { testId := 1, status := ResultStatus.error, retryCount := 2 } (by decide)⟩

/-- Claim C5: in the crawl loop modelled from spec section 4.1, driven
through the source function `navigate`, a navigation failure on the
page the controller visits next is isolated to that page: the loop
produces a PageRecord with status `error` for it and then continues as
the crawl of the remaining frontier with the page marked visited, and
that page's url never reappears in the rest of the run (skipped, not
retried). -/
theorem crawl_navigation_failure_isolated
    (nav : String → Except String Unit) (links : String → List String)
    (maxDepth budget : Nat) (frontier : List (String × Nat))
    (visited : List String) (entry : String × Nat)
    (rest : List (String × Nat))
    (hnext : nextVisitable visited maxDepth frontier = some (entry, rest))
    (hfail : navigate (nav entry.1) = false) :
    crawlGo nav links maxDepth (budget + 1) frontier visited =
      { url := entry.1, depth := entry.2, status := .error } ::
        crawlGo nav links maxDepth budget rest (entry.1 :: visited) ∧
      entry.1 ∉
        (crawlGo nav links maxDepth budget rest (entry.1 :: visited)).map
          PageRecord.url := by
  constructor
  · rw [crawlGo, hnext]
    simp [hfail]
  · intro hmem
    rcases List.mem_map.mp hmem with ⟨r, hr, hurl⟩
    have := crawlGo_url_not_visited nav links maxDepth budget rest
      (entry.1 :: visited) r hr
    exact this (hurl ▸ List.mem_cons_self _ _)

/-- Witness for claim C5: with a `goto` oracle failing on url `"a"`, a
frontier holding `"a"` then `"b"` and nothing visited, the visit of
`"a"` yields an error record, the crawl continues on `["b"]`, and `"a"`
is never recorded again. -/
theorem crawl_navigation_failure_isolated_witness :
    crawlGo navFailsOnA noLinks 5 (2 + 1) [("a", 0), ("b", 0)] [] =
      { url := "a", depth := 0, status := PageStatus.error } ::
        crawlGo navFailsOnA noLinks 5 2 [("b", 0)] ["a"] ∧
      "a" ∉
        (crawlGo navFailsOnA noLinks 5 2 [("b", 0)] ["a"]).map
          PageRecord.url :=
  crawl_navigation_failure_isolated navFailsOnA noLinks 5 2
    [("a", 0), ("b", 0)] [] ("a", 0) [("b", 0)] (by decide) (by decide)

/-- Claim C6: the claimed four-part run summary (passed count, failed
count, error count, total duration) fails on the `tests:run` handler of
`main.js`: the returned summary carries only `passed`, `failed` and
`total`; the error-count and total-duration keys are absent (`none`)
for every run configuration. -/
theorem testsRun_summary_lacks_error_count_and_duration (cfg : RunConfig) :
    (testsRun cfg).results =
      some { passed := some 5, failed := some 1, errors := none
           , total := some 6, totalDuration := none } :=
  rfl

/-- Claim C7: the claimed cancellation path fails on the sources: the
preload script's `stopTests` invokes the IPC channel `tests:stop`, but
`setupIpcHandlers` in `main.js` registers no handler for that channel
(while it does register `tests:run`), so a run-level cancel signal is
never received by the main process. -/
theorem stopTests_channel_unregistered :
    stopTestsChannel ∉ registeredIpcChannels ∧
      "tests:run" ∈ registeredIpcChannels := by
  decide

/-- Claim C8: the `tests:run` handler is deterministic and independent
of its input: any two run configurations produce the same response,
namely success with the fixed summary `passed 5, failed 1, total 6`. -/
theorem testsRun_independent_of_config (cfg cfg' : RunConfig) :
    testsRun cfg = testsRun cfg' ∧
      testsRun cfg =
        { success := true
        , results := some { passed := some 5, failed := some 1, errors := none
                          , total := some 6, totalDuration := none }
        , error := none } :=
  ⟨rfl, rfl⟩

/-- Claim C9: `StealthPlaywrightEngine.navigate` is total over its
outcomes: for every outcome of the underlying `page.goto` it returns a
Boolean — `true` exactly when the navigation completed, `false` on any
raised error — and by its type it never propagates an exception. -/
theorem navigate_returns_isOk (gotoOutcome : Except String Unit) :
    navigate gotoOutcome = gotoOutcome.isOk := by
  cases gotoOutcome <;> rfl

/-- Claim C10: the `ai:generate-tests` handler succeeds and returns the
same three TestCases — `Login Test` (functional), `Navigation Test`
(ui), `Form Submission Test` (functional) — for every generation
configuration, whatever its pages, element descriptors or test-type
filters. -/
theorem aiGenerateTests_fixed_output (cfg : GenConfig) :
    aiGenerateTests cfg =
      { success := true
      , tests := some
          [ { name := "Login Test", type := TestType.functional }
          , { name := "Navigation Test", type := TestType.ui }
          , { name := "Form Submission Test", type := TestType.functional } ]
      , error := none } :=
  rfl

end TestAutomationPro
